import Mathlib

/-!
Shallow embedding of `src/server.js` (Subamerica relay 2.1): the in-memory
token store with TTL pruning, the stream-URL resolver, the Livepush stream
matcher, the now-playing endpoint and the offer / shortlink / QR handlers.
External collaborators (WHATWG URL parsing, outbound HTTP fetches, the QR
renderer, crypto randomness and the wall clock) enter as explicit parameters.
JavaScript truthiness on optional strings and numbers is modelled explicitly.
Display-only computation (`parseFloat` price parsing, `Intl` currency
formatting, the regex HTML-strip of the description) is floating-point or
locale work no claim touches and is not modelled.
-/

namespace Relay

/-- JS truthiness of a possibly-absent string: `null`, `undefined` and `""` are falsy. -/
def strTruthy : Option String → Bool
  | none => false
  | some s => !(s == "")

/-- JS `x || d` on an optional string: the first operand when truthy, else the default. -/
def jsOrStr (x : Option String) (d : String) : String :=
  match x with
  | none => d
  | some s => if s == "" then d else s

/-- JS truthiness of a possibly-absent number: `null`, `undefined` and `0` are falsy. -/
def intTruthy : Option Int → Bool
  | none => false
  | some n => !(n == 0)

/-- JS `x || null` on an optional number, as in `found.id || null` (server.js:114). -/
def jsOrIntNull (x : Option Int) : Option Int :=
  match x with
  | none => none
  | some n => if n == 0 then none else some n

/-- One record of `tokenStore`: `{ product_id, artist_id, createdAt }` (server.js:30). -/
structure TokenRec where
  product_id : Int
  artist_id : String
  createdAt : Int
deriving Repr, DecidableEq

/-- The `tokenStore` JS `Map` as an insertion-ordered association list. -/
abbrev TokenStore := List (String × TokenRec)

/-- JS `tokenStore.get(token)`: the binding of the key (first occurrence). -/
def storeGet (st : TokenStore) (tok : String) : Option TokenRec :=
  (st.find? (fun p => p.1 == tok)).map Prod.snd

/-- JS `tokenStore.set(token, rec)`: overwrite in place when present, else append. -/
def storeSet (st : TokenStore) (tok : String) (v : TokenRec) : TokenStore :=
  if (st.find? (fun p => p.1 == tok)).isSome then
    st.map (fun p => if p.1 == tok then (tok, v) else p)
  else st ++ [(tok, v)]

/-- Function `pruneTokens` (server.js:58-63): deletes every entry with
`now - obj.createdAt > SHORT_TTL_MS` while iterating the `Map`; surviving
entries keep their order, so the effect is a filter. -/
def pruneTokens (ttl now : Int) (st : TokenStore) : TokenStore :=
  st.filter (fun p => !(decide (now - p.2.createdAt > ttl)))

/-- Response of `GET /b/:token`: 404 `Expired`, or the HTML redirect page. -/
inductive BResp where
  | notFound
  | redirect (html : String)
deriving Repr, DecidableEq

/-- Handler of `GET /b/:token` (server.js:192-199). It only calls
`tokenStore.get`; the returned store is the store it acts on. -/
def handleB (shopBase : String) (st : TokenStore) (tok : String) : BResp × TokenStore :=
  match storeGet st tok with
  | none => (.notFound, st)
  | some rec =>
    let final := shopBase ++ "/?add-to-cart=" ++ toString rec.product_id ++ "&quantity=1"
    let checkout := shopBase ++ "/checkout"
    (.redirect ("<!doctype html><meta http-equiv=\"refresh\" content=\"0;url=" ++ final
      ++ "\"><script>setTimeout(function()\x7blocation.replace(\x27" ++ checkout
      ++ "\x27)\x7d,500)</script>"), st)

/-- Response of `GET /qr/:token.png`: 404 `Expired`, the PNG bytes, or 500 `QR error`. -/
inductive QrResp where
  | notFound
  | png (bytes : List Nat)
  | qrError
deriving Repr, DecidableEq

/-- Handler of `GET /qr/:token.png` (server.js:201-212). The QR renderer
`QRCode.toBuffer` is external and passed as a function; `none` models a throw
(caught and turned into 500). The store is only read. -/
def handleQr (hostBase : String) (render : String → Option (List Nat))
    (st : TokenStore) (tok : String) : QrResp × TokenStore :=
  match storeGet st tok with
  | none => (.notFound, st)
  | some _ =>
    let shortUrl := hostBase ++ "/b/" ++ tok
    match render shortUrl with
    | some bytes => (.png bytes, st)
    | none => (.qrError, st)

/-- JS `key.replace` of the regex "one or more dashes at end" with the empty
string (server.js:89,110): drop the maximal trailing run of `-`. -/
def stripTrailingDashes (s : String) : String :=
  ⟨(s.data.reverse.dropWhile (fun c => c == '-')).reverse⟩

/-- JS `String.prototype.split` with a single-character separator, on the
character list: splitting on every occurrence, keeping empty pieces. -/
def splitChar (sep : Char) : List Char → List (List Char)
  | [] => [[]]
  | c :: cs =>
    if c == sep then [] :: splitChar sep cs
    else
      match splitChar sep cs with
      | [] => [[c]]
      | g :: gs => (c :: g) :: gs

/-- JS `u.pathname.split('/').filter(Boolean)` (server.js:82). -/
def pathSegments (path : String) : List String :=
  ((splitChar '/' path.data).map (fun l => String.mk l)).filter (fun s => !(s == ""))

/-- The partial parse object `out` restricted to its parse fields
(`appId`, `streamKey`), both initialized to `null` (server.js:77). -/
structure ParsedOut where
  appId : Option String
  streamKey : Option String
deriving Repr, DecidableEq

/-- The parse phase of `POST /resolve/stream` (server.js:82-91): split the
path, find the first `live_cdn` segment, take the next segment as `appId` and
the one after, with trailing dashes stripped, as `streamKey`. -/
def parseCdnPath (path : String) : ParsedOut :=
  let parts := pathSegments path
  match parts.findIdx? (fun s => s == "live_cdn") with
  | some idx =>
    if parts.length ≥ idx + 3 then
      { appId := parts[idx + 1]?, streamKey := (parts[idx + 2]?).map stripTrailingDashes }
    else { appId := none, streamKey := none }
  | none => { appId := none, streamKey := none }

/-- One record of the Livepush `/streams` directory; `streamKey` may be absent
(JS reads `s.streamKey || ''`) and `id` may be absent or `0` (JS `found.id || null`). -/
structure StreamRec where
  streamKey : Option String
  id : Option Int
deriving Repr, DecidableEq

/-- The inline matcher of server.js:109-112: first directory record whose key,
after the same trailing-dash normalization, equals the query key. -/
def findStream (query : String) (arr : List StreamRec) : Option StreamRec :=
  arr.find? (fun s => stripTrailingDashes (s.streamKey.getD "") == query)

/-- Outcome of the optional Livepush directory fetch, as seen by the handler:
token absent (skip), fetch/json threw, JSON not an array, or an array. -/
inductive LookupResult where
  | notConfigured
  | fetchError
  | nonList
  | list (streams : List StreamRec)
deriving Repr, DecidableEq

/-- The `raw` diagnostic object of the resolve response (server.js:77,107,115,119). -/
structure RawInfo where
  streamsCount : Option Nat
  matched : Option StreamRec
  error : Option String
deriving Repr, DecidableEq

/-- The Livepush lookup block (server.js:101-121): sets `streamId` and `raw`.
A throw is caught and recorded as `raw.error = 'livepush_lookup_failed'`; a
non-array body records `streamsCount = 0` and matches nothing. -/
def doLookup (query : String) (lk : LookupResult) : Option Int × RawInfo :=
  match lk with
  | .notConfigured => (none, { streamsCount := none, matched := none, error := none })
  | .fetchError =>
    (none, { streamsCount := none, matched := none,
             error := some ("livepush_" ++ "lookup_failed") })
  | .nonList => (none, { streamsCount := some 0, matched := none, error := none })
  | .list arr =>
    match findStream query arr with
    | some found => (jsOrIntNull found.id,
        { streamsCount := some arr.length, matched := some found, error := none })
    | none => (none, { streamsCount := some arr.length, matched := none, error := none })

/-- Response of `POST /resolve/stream`: 400, 422 with the partial parse, or
the JSON `{ appId, streamKey, streamId, raw }`. -/
inductive ResolveResp where
  | badRequest (msg : String)
  | unrecognized (parsed : ParsedOut)
  | ok (appId streamKey : String) (streamId : Option Int) (raw : RawInfo)
deriving Repr, DecidableEq

/-- Handler of `POST /resolve/stream` (server.js:73-124). `m3u8` is the body
field (`none` = absent/falsy); `urlParse` is the external WHATWG `new URL`
constructor, returning the pathname on success and `none` on throw; `lk` is
the outcome of the optional Livepush fetch. -/
def resolveStream (m3u8 : Option String) (urlParse : String → Option String)
    (lk : LookupResult) : ResolveResp :=
  let s := m3u8.getD ""
  if s == "" then .badRequest "m3u8 required"
  else
    match urlParse s with
    | none => .badRequest "invalid m3u8 url"
    | some path =>
      let parsed := parseCdnPath path
      if !(strTruthy parsed.appId) || !(strTruthy parsed.streamKey) then
        .unrecognized parsed
      else
        let key := parsed.streamKey.getD ""
        let res := doLookup key lk
        .ok (parsed.appId.getD "") key res.1 res.2

/-- URL-parse stub for concrete evaluations: maps one fixed URL string to a
fixed pathname, failing (as `new URL` throws) on every other input. -/
def urlParseStub (url path : String) : String → Option String :=
  fun s => if s == url then some path else none

/-- The `nowPlaying` singleton: `{ artist_id, artist_name, ts }` (server.js:29). -/
structure NowPlaying where
  artist_id : Option String
  artist_name : Option String
  ts : Int
deriving Repr, DecidableEq

/-- Response of `POST /nowplaying`: 400, or `{ ok: true, nowPlaying }`. -/
inductive NPResp where
  | badRequest
  | ok (np : NowPlaying)
deriving Repr, DecidableEq

/-- Handler of `POST /nowplaying` (server.js:128-133): 400 when `artist_id`
is falsy, else replace the singleton with
`{ artist_id, artist_name: artist_name || artist_id, ts: now }`. -/
def handleNowPlaying (aid aname : Option String) (now : Int) (np : NowPlaying) :
    NPResp × NowPlaying :=
  if !(strTruthy aid) then (.badRequest, np)
  else
    let np' : NowPlaying :=
      { artist_id := aid, artist_name := some (jsOrStr aname (aid.getD "")), ts := now }
    (.ok np', np')

/-- A WooCommerce product as the handler reads it: `id` may be absent or `0`
(the JS check is `!prod.id`); `images` is the list of `src` strings. -/
structure Product where
  id : Option Int
  sku : String
  name : String
  ptype : String
  stock_status : String
  images : List String
deriving Repr, DecidableEq

/-- Outcome of the WooCommerce catalog call as seen by `GET /offer/active`:
the fetch/json threw, the JSON body was not an array, or it was an array. -/
inductive CatalogResult where
  | throwErr
  | nonArray
  | array (items : List Product)
deriving Repr, DecidableEq

/-- JS `skuMap[artistId]` on the sku map loaded at startup. -/
def skuLookup (m : List (String × String)) (k : String) : Option String :=
  (m.find? (fun p => p.1 == k)).map Prod.snd

/-- The `artist` object of the offer response (server.js:177). -/
structure OfferArtist where
  id : String
  name : String
deriving Repr, DecidableEq

/-- The `product` object of the offer response, restricted to the fields the
claims touch (price amount/formatting and description are display-only). -/
structure OfferProduct where
  id : Int
  sku : String
  name : String
  image : Option String
  buyUrl : String
  shortUrl : String
  qrPng : String
deriving Repr, DecidableEq

/-- Response of `GET /offer/active`: always a 200 JSON body, either
`{ overlay: { visible: false, ttlSec } }` or the full offer. -/
inductive OfferResp where
  | hidden (ttlSec : Int)
  | visible (ttlSec : Int) (artist : OfferArtist) (product : OfferProduct)
deriving Repr, DecidableEq

/-- Handler of `GET /offer/active` (server.js:135-190). Every degrade path
returns `hidden` and leaves the token store untouched; the success path mints
`newTok` (the external `crypto.randomBytes(5).toString('hex')`) into the store. -/
def handleOffer (skuMap : List (String × String)) (offerTtl : Int)
    (shopBase hostBase : String) (np : NowPlaying) (catalog : CatalogResult)
    (newTok : String) (now : Int) (st : TokenStore) : OfferResp × TokenStore :=
  if !(strTruthy np.artist_id) then (.hidden offerTtl, st)
  else
    let artistId := np.artist_id.getD ""
    if !(strTruthy (skuLookup skuMap artistId)) then (.hidden offerTtl, st)
    else
      let finish : Option Product → OfferResp × TokenStore := fun prodOpt =>
        match prodOpt with
        | none => (.hidden offerTtl, st)
        | some prod =>
          if !(intTruthy prod.id) || prod.ptype == "variable"
              || !(prod.stock_status == "instock") then
            (.hidden offerTtl, st)
          else
            let pid := prod.id.getD 0
            let st' := storeSet st newTok
              { product_id := pid, artist_id := artistId, createdAt := now }
            let image := match prod.images.head? with
              | some s => if s == "" then none else some s
              | none => none
            (.visible offerTtl
              { id := artistId, name := jsOrStr np.artist_name artistId }
              { id := pid, sku := prod.sku, name := prod.name, image := image,
                buyUrl := shopBase ++ "/?add-to-cart=" ++ toString pid ++ "&quantity=1",
                shortUrl := hostBase ++ "/b/" ++ newTok,
                qrPng := hostBase ++ "/qr/" ++ newTok ++ ".png" }, st')
      match catalog with
      | .throwErr => (.hidden offerTtl, st)
      | .nonArray => finish none
      | .array items => finish items.head?

/-! Helper lemmas, shared by several claim theorems. -/

/-- Every element of `pathSegments` is a non-empty string (the JS
`filter(Boolean)` removed the empty pieces). -/
theorem mem_pathSegments_ne_empty {path s : String} (h : s ∈ pathSegments path) :
    s ≠ "" := by
  have := (List.mem_filter.mp h).2
  simpa using this

/-- A fresh binding (age at most the TTL) survives `pruneTokens` and is still
the binding `storeGet` returns. -/
theorem storeGet_prune_of_fresh (ttl now : Int) (st : TokenStore) (tok : String)
    (rec : TokenRec) (h : storeGet st tok = some rec)
    (hage : now - rec.createdAt ≤ ttl) :
    storeGet (pruneTokens ttl now st) tok = some rec := by
  induction st with
  | nil => simp [storeGet] at h
  | cons a rest ih =>
    by_cases ha : (a.1 == tok) = true
    · have ha2 : a.2 = rec := by
        simp [storeGet, List.find?_cons_of_pos, ha] at h
        exact h
      have hkeep : ¬ ttl < now - a.2.createdAt := by rw [ha2]; omega
      have hfc : pruneTokens ttl now (a :: rest) = a :: pruneTokens ttl now rest := by
        simp [pruneTokens, List.filter_cons, hkeep]
      rw [hfc]
      simp [storeGet, List.find?_cons_of_pos, ha, ha2]
    · have h' : storeGet rest tok = some rec := by
        simpa [storeGet, List.find?_cons_of_neg, ha] using h
      have ih' := ih h'
      by_cases hkeep : ttl < now - a.2.createdAt
      · have hfc : pruneTokens ttl now (a :: rest) = pruneTokens ttl now rest := by
          simp [pruneTokens, List.filter_cons, hkeep]
        rw [hfc]; exact ih'
      · have hfc : pruneTokens ttl now (a :: rest) = a :: pruneTokens ttl now rest := by
          simp [pruneTokens, List.filter_cons, hkeep]
        rw [hfc]
        simpa [storeGet, List.find?_cons_of_neg, ha] using ih'

/-- After a sweep in which every binding of the key is over age, the key is gone. -/
theorem storeGet_prune_of_expired (ttl now : Int) (st : TokenStore) (tok : String)
    (h : ∀ p ∈ st, p.1 = tok → now - p.2.createdAt > ttl) :
    storeGet (pruneTokens ttl now st) tok = none := by
  simp only [storeGet, Option.map_eq_none', List.find?_eq_none]
  intro x hx
  simp only [pruneTokens, List.mem_filter] at hx
  obtain ⟨hmem, hkeep⟩ := hx
  intro hbeq
  have hgt : now - x.2.createdAt > ttl := h x hmem (by simpa using hbeq)
  simp [hgt] at hkeep

/-! Claim theorems. -/

/-- C6 (counterexample): the claim says the sweep removes every entry whose
age is at least the TTL, but an entry of age exactly the TTL (here
`now - createdAt = 1800000 = TTL`) is kept by `pruneTokens`, whose test is
the strict `now - obj.createdAt > SHORT_TTL_MS`. -/
theorem claim_C6_cex :
    ((1800000 : Int) - 0 ≥ 1800000)
    ∧ pruneTokens 1800000 1800000 [("t", { product_id := 1, artist_id := "a", createdAt := 0 })]
      = [("t", { product_id := 1, artist_id := "a", createdAt := 0 })] :=
  ⟨by decide, by decide⟩

/-- C6 (amended): one invocation of the sweep removes exactly the entries
whose age is strictly greater than the TTL; every entry of age at most the
TTL is still present, unmodified. -/
theorem claim_C6_amended :
    ∀ (ttl now : Int) (st : TokenStore) (p : String × TokenRec),
      p ∈ pruneTokens ttl now st ↔ p ∈ st ∧ now - p.2.createdAt ≤ ttl := by
  intro ttl now st p
  simp only [pruneTokens, List.mem_filter, Bool.not_eq_eq_eq_not, Bool.not_true,
    decide_eq_false_iff_not, not_lt]

/-- C8: sweeping twice at the same instant, with no intervening writes, gives
the same store as sweeping once (the sweep is idempotent). -/
theorem claim_C8 :
    ∀ (ttl now : Int) (st : TokenStore),
      pruneTokens ttl now (pruneTokens ttl now st) = pruneTokens ttl now st := by
  intro ttl now st
  simp [pruneTokens, List.filter_filter]

/-- C4: the matcher returns precisely the first record in list order whose
directory key, stripped of its trailing dash run, equals the query key
exactly; on the directory `[{streamKey:"abc--", id:1}, {streamKey:"abc", id:2}]`
with query `"abc"` it returns the record with id 1. -/
theorem claim_C4 :
    (∀ (q : String) (arr : List StreamRec) (r : StreamRec),
      findStream q arr = some r ↔
        stripTrailingDashes (r.streamKey.getD "") = q
        ∧ ∃ l1 l2, arr = l1 ++ r :: l2
            ∧ ∀ x ∈ l1, stripTrailingDashes (x.streamKey.getD "") ≠ q)
    ∧ findStream "abc"
        [{ streamKey := some "abc--", id := some 1 }, { streamKey := some "abc", id := some 2 }]
      = some { streamKey := some "abc--", id := some 1 } := by
  constructor
  · intro q arr r
    unfold findStream
    rw [List.find?_eq_some]
    simp
  · decide

/-- C9: redeeming a stored token via `GET /b/:token` or `GET /qr/:token.png`
leaves the token store unchanged; a second immediate redemption returns the
identical response, a redirect whose target contains
`add-to-cart=<product_id>`; the QR handler also leaves the store unchanged
and succeeds (is not 404) on a present token. -/
theorem claim_C9 (shopBase hostBase : String) (render : String → Option (List Nat))
    (st : TokenStore) (tok : String) (rec : TokenRec)
    (h : storeGet st tok = some rec) :
    (handleB shopBase st tok).2 = st
    ∧ handleB shopBase ((handleB shopBase st tok).2) tok = handleB shopBase st tok
    ∧ (∃ pre post, (handleB shopBase st tok).1
        = BResp.redirect (pre ++ ("add-to-cart=" ++ toString rec.product_id) ++ post))
    ∧ (handleQr hostBase render st tok).2 = st
    ∧ (handleQr hostBase render st tok).1 ≠ QrResp.notFound := by
  have hb : handleB shopBase st tok
      = (.redirect ("<!doctype html><meta http-equiv=\"refresh\" content=\"0;url="
          ++ (shopBase ++ "/?add-to-cart=" ++ toString rec.product_id ++ "&quantity=1")
          ++ "\"><script>setTimeout(function()\x7blocation.replace(\x27"
          ++ (shopBase ++ "/checkout")
          ++ "\x27)\x7d,500)</script>"), st) := by
    simp [handleB, h]
  refine ⟨by rw [hb], by rw [hb]; exact hb, ?_, ?_, ?_⟩
  · refine ⟨"<!doctype html><meta http-equiv=\"refresh\" content=\"0;url=" ++ (shopBase ++ "/?"),
      "&quantity=1" ++ ("\"><script>setTimeout(function()\x7blocation.replace(\x27"
        ++ (shopBase ++ "/checkout") ++ "\x27)\x7d,500)</script>"), ?_⟩
    rw [hb]
    have hsplit : ("/?add-to-cart=" : String) = "/?" ++ "add-to-cart=" := by decide
    simp only [hsplit, String.append_assoc]
  · cases hr : render (hostBase ++ "/b/" ++ tok) <;> simp [handleQr, h, hr]
  · cases hr : render (hostBase ++ "/b/" ++ tok) <;> simp [handleQr, h, hr]


/-- C1 (amended): the token read path -- both `GET /b/:token` and
`GET /qr/:token.png` -- checks only physical presence, not age: each read
returns NotFound exactly when the token is absent from the store. A read
before `createdAt + TTL` still succeeds after a sweep (the sweep keeps
entries of age at most the TTL), and both reads resolve as NotFound once a
sweep past `createdAt + TTL` has removed every binding of the token. -/
theorem claim_C1_amended (ttl now : Int) (shopBase hostBase tok : String)
    (render : String → Option (List Nat)) (st : TokenStore) :
    ((handleB shopBase st tok).1 = BResp.notFound ↔ storeGet st tok = none)
    ∧ ((handleQr hostBase render st tok).1 = QrResp.notFound ↔ storeGet st tok = none)
    ∧ (∀ rec, storeGet st tok = some rec → now - rec.createdAt ≤ ttl →
        (handleB shopBase (pruneTokens ttl now st) tok).1 ≠ BResp.notFound
        ∧ (handleQr hostBase render (pruneTokens ttl now st) tok).1 ≠ QrResp.notFound)
    ∧ ((∀ p ∈ st, p.1 = tok → now - p.2.createdAt > ttl) →
        (handleB shopBase (pruneTokens ttl now st) tok).1 = BResp.notFound
        ∧ (handleQr hostBase render (pruneTokens ttl now st) tok).1 = QrResp.notFound) := by
  refine ⟨?_, ?_, ?_, ?_⟩
  · cases hg : storeGet st tok <;> simp [handleB, hg]
  · cases hg : storeGet st tok
    · simp [handleQr, hg]
    · cases hr : render (hostBase ++ "/b/" ++ tok) <;> simp [handleQr, hg, hr]
  · intro rec hrec hage
    have hs := storeGet_prune_of_fresh ttl now st tok rec hrec hage
    constructor
    · simp [handleB, hs]
    · cases hr : render (hostBase ++ "/b/" ++ tok) <;> simp [handleQr, hs, hr]
  · intro hall
    have hs := storeGet_prune_of_expired ttl now st tok hall
    exact ⟨by simp [handleB, hs], by simp [handleQr, hs]⟩

/-- C1 (counterexample): the claim says a read via either endpoint of the
token-read path whose age at read time is at least the TTL returns NotFound
even if the record is physically present; but with the record of age
1800001 ms >= TTL = 1800000 ms still in the store (no sweep has run), both
`GET /b/:token` and `GET /qr/:token.png` succeed: neither handler checks age. -/
theorem claim_C1_cex :
    storeGet [("ab", { product_id := 42, artist_id := "x", createdAt := 0 })] "ab"
      = some { product_id := 42, artist_id := "x", createdAt := 0 }
    ∧ ((1800001 : Int) - 0 ≥ 1800000)
    ∧ (handleB "https://subamerica.net/shop"
        [("ab", { product_id := 42, artist_id := "x", createdAt := 0 })] "ab").1
      ≠ BResp.notFound
    ∧ (handleQr "http://relay.example" (fun _ => some [])
        [("ab", { product_id := 42, artist_id := "x", createdAt := 0 })] "ab").1
      ≠ QrResp.notFound :=
  ⟨by decide, by decide, by decide, by decide⟩

/-- C1 (witness): concrete instance of the amended claim for both read
endpoints, TTL 1800000 ms, before and after the expiry boundary. -/
theorem claim_C1_amended_witness :
    (handleB "https://subamerica.net/shop"
        (pruneTokens 1800000 1799999
          [("ab", { product_id := 42, artist_id := "x", createdAt := 0 })]) "ab").1
      ≠ BResp.notFound
    ∧ (handleQr "http://relay.example" (fun _ => some [])
        (pruneTokens 1800000 1799999
          [("ab", { product_id := 42, artist_id := "x", createdAt := 0 })]) "ab").1
      ≠ QrResp.notFound
    ∧ (handleB "https://subamerica.net/shop"
        (pruneTokens 1800000 1800001
          [("ab", { product_id := 42, artist_id := "x", createdAt := 0 })]) "ab").1
      = BResp.notFound
    ∧ (handleQr "http://relay.example" (fun _ => some [])
        (pruneTokens 1800000 1800001
          [("ab", { product_id := 42, artist_id := "x", createdAt := 0 })]) "ab").1
      = QrResp.notFound :=
  ⟨((claim_C1_amended 1800000 1799999 "https://subamerica.net/shop" "http://relay.example"
      "ab" (fun _ => some [])
      [("ab", { product_id := 42, artist_id := "x", createdAt := 0 })]).2.2.1
      { product_id := 42, artist_id := "x", createdAt := 0 } (by decide) (by decide)).1,
   ((claim_C1_amended 1800000 1799999 "https://subamerica.net/shop" "http://relay.example"
      "ab" (fun _ => some [])
      [("ab", { product_id := 42, artist_id := "x", createdAt := 0 })]).2.2.1
      { product_id := 42, artist_id := "x", createdAt := 0 } (by decide) (by decide)).2,
   ((claim_C1_amended 1800000 1800001 "https://subamerica.net/shop" "http://relay.example"
      "ab" (fun _ => some [])
      [("ab", { product_id := 42, artist_id := "x", createdAt := 0 })]).2.2.2 (by decide)).1,
   ((claim_C1_amended 1800000 1800001 "https://subamerica.net/shop" "http://relay.example"
      "ab" (fun _ => some [])
      [("ab", { product_id := 42, artist_id := "x", createdAt := 0 })]).2.2.2 (by decide)).2⟩

/-- C9 (witness): concrete instance, token "ab" bound to product 42. -/
theorem claim_C9_witness :
    (handleB "https://subamerica.net/shop"
        [("ab", { product_id := 42, artist_id := "x", createdAt := 0 })] "ab").2
      = [("ab", { product_id := 42, artist_id := "x", createdAt := 0 })]
    ∧ (∃ pre post, (handleB "https://subamerica.net/shop"
        [("ab", { product_id := 42, artist_id := "x", createdAt := 0 })] "ab").1
      = BResp.redirect (pre ++ ("add-to-cart=" ++ toString (42 : Int)) ++ post)) := by
  have h := claim_C9 "https://subamerica.net/shop" "http://relay.example"
    (fun _ => some []) [("ab", { product_id := 42, artist_id := "x", createdAt := 0 })]
    "ab" { product_id := 42, artist_id := "x", createdAt := 0 } (by decide)
  exact ⟨h.1, h.2.2.1⟩


/-- C2: `GET /offer/active` returns the hidden overlay (a plain 200 value;
the handler has no error outcome) and leaves the store untouched whenever
no artist is set, the artist is absent from the SKU map, the catalog call
throws, the catalog returns zero results, or the first returned product is
variable-type, lacks an id, or is not in stock. -/
theorem claim_C2 (skuMap : List (String × String)) (offerTtl : Int)
    (shopBase hostBase : String) (np : NowPlaying) (catalog : CatalogResult)
    (newTok : String) (now : Int) (st : TokenStore)
    (h : np.artist_id = none
      ∨ (∀ a, np.artist_id = some a → skuLookup skuMap a = none)
      ∨ catalog = CatalogResult.throwErr
      ∨ catalog = CatalogResult.array []
      ∨ (∃ p ps, catalog = CatalogResult.array (p :: ps)
          ∧ (p.id = none ∨ p.ptype = "variable" ∨ p.stock_status ≠ "instock"))) :
    handleOffer skuMap offerTtl shopBase hostBase np catalog newTok now st
      = (OfferResp.hidden offerTtl, st) := by
  by_cases h1 : strTruthy np.artist_id = true
  case neg =>
    simp only [Bool.not_eq_true] at h1
    simp [handleOffer, h1]
  case pos =>
    by_cases h2 : strTruthy (skuLookup skuMap (np.artist_id.getD "")) = true
    case neg =>
      simp only [Bool.not_eq_true] at h2
      simp [handleOffer, h1, h2]
    case pos =>
      rcases h with h | h | h | h | ⟨p, ps, hc, hp⟩
      · rw [h] at h1; simp [strTruthy] at h1
      · cases hid : np.artist_id with
        | none => rw [hid] at h1; simp [strTruthy] at h1
        | some a =>
          have hsku := h a hid
          rw [hid] at h2
          simp [hsku, strTruthy] at h2
      · subst h; simp [handleOffer, h1, h2]
      · subst h; simp [handleOffer, h1, h2]
      · subst hc
        rcases hp with hp | hp | hp <;>
          simp [handleOffer, h1, h2, hp, intTruthy]


/-- C2 (witness): concrete instance with empty now-playing state and a
throwing catalog. -/
theorem claim_C2_witness :
    handleOffer [] 25 "https://subamerica.net/shop" "http://relay.example"
      { artist_id := none, artist_name := none, ts := 0 }
      CatalogResult.throwErr "t" 0 []
      = (OfferResp.hidden 25, []) :=
  claim_C2 [] 25 "https://subamerica.net/shop" "http://relay.example"
    { artist_id := none, artist_name := none, ts := 0 }
    CatalogResult.throwErr "t" 0 [] (Or.inl rfl)

/-- C10: when `artist_id` is present but `artist_name` is absent or falsy,
`POST /nowplaying` stores `artist_name` equal to `artist_id` (never null),
and any visible `GET /offer/active` response built from a state with a falsy
`artist_name` reports `artist.name` equal to the artist id. -/
theorem claim_C10 :
    (∀ (aid : String) (aname : Option String) (now : Int) (np : NowPlaying),
      aid ≠ "" → strTruthy aname = false →
      handleNowPlaying (some aid) aname now np
        = (NPResp.ok { artist_id := some aid, artist_name := some aid, ts := now },
           { artist_id := some aid, artist_name := some aid, ts := now }))
    ∧ (∀ (skuMap : List (String × String)) (offerTtl : Int) (shopBase hostBase : String)
        (np : NowPlaying) (catalog : CatalogResult) (newTok : String) (now : Int)
        (st : TokenStore) (a : String) (t : Int) (ar : OfferArtist) (pr : OfferProduct)
        (st' : TokenStore),
      np.artist_id = some a → strTruthy np.artist_name = false →
      handleOffer skuMap offerTtl shopBase hostBase np catalog newTok now st
        = (OfferResp.visible t ar pr, st') → ar.name = a) := by
  constructor
  · intro aid aname now np haid hname
    have hjs : jsOrStr aname aid = aid := by
      cases aname with
      | none => rfl
      | some s =>
        simp [strTruthy] at hname
        simp [jsOrStr, hname]
    simp [handleNowPlaying, strTruthy, haid, hjs]
  · intro skuMap offerTtl shopBase hostBase np catalog newTok now st a t ar pr st' hid hname heq
    have hjs : jsOrStr np.artist_name a = a := by
      cases hn : np.artist_name with
      | none => rfl
      | some s =>
        rw [hn] at hname
        simp [strTruthy] at hname
        simp [jsOrStr, hname]
    simp only [handleOffer, hid, Option.getD_some] at heq
    by_cases h1 : strTruthy (some a) = true
    case neg =>
      simp only [Bool.not_eq_true] at h1
      simp [h1] at heq
    case pos =>
      by_cases h2 : strTruthy (skuLookup skuMap a) = true
      case neg =>
        simp only [Bool.not_eq_true] at h2
        simp [h1, h2] at heq
      case pos =>
        rcases catalog with _ | _ | items
        · simp [h1, h2] at heq
        · simp [h1, h2] at heq
        · rcases items with _ | ⟨p, ps⟩
          · simp [h1, h2] at heq
          · by_cases h3 : (!(intTruthy p.id) || p.ptype == "variable"
                || !(p.stock_status == "instock")) = true
            · simp [h1, h2, h3] at heq
            · simp [h1, h2, h3] at heq
              rw [← heq.1.2.1, hjs]


/-- C10 (witness): concrete now-playing update without a name, and a
concrete visible offer whose artist name fell back to the id. -/
theorem claim_C10_witness :
    handleNowPlaying (some "colleenanthony") none 5
        { artist_id := none, artist_name := none, ts := 0 }
      = (NPResp.ok { artist_id := some "colleenanthony", artist_name := some "colleenanthony", ts := 5 },
         { artist_id := some "colleenanthony", artist_name := some "colleenanthony", ts := 5 })
    ∧ (OfferArtist.mk "colleenanthony" "colleenanthony").name = "colleenanthony" :=
  ⟨claim_C10.1 "colleenanthony" none 5 { artist_id := none, artist_name := none, ts := 0 }
      (by decide) (by decide),
   claim_C10.2 [("colleenanthony", "0002")] 25 "https://subamerica.net/shop"
      "http://relay.example"
      { artist_id := some "colleenanthony", artist_name := none, ts := 0 }
      (CatalogResult.array [{ id := some 42, sku := "0002", name := "Item",
                              ptype := "simple", stock_status := "instock", images := [] }])
      "ab" 0 [] "colleenanthony" 25
      (OfferArtist.mk "colleenanthony" "colleenanthony")
      { id := 42, sku := "0002", name := "Item", image := none,
        buyUrl := "https://subamerica.net/shop/?add-to-cart=42&quantity=1",
        shortUrl := "http://relay.example/b/ab",
        qrPng := "http://relay.example/qr/ab.png" }
      [("ab", { product_id := 42, artist_id := "colleenanthony", createdAt := 0 })]
      rfl (by decide) (by decide)⟩

/-- C3 (amended): for every well-formed URL whose path contains the segment
`live_cdn` followed by at least two segments, provided the segment two after
the marker does not strip to the empty string, the resolver returns `appId`
equal to the segment immediately after the marker and `streamKey` equal to
the segment two after with its trailing dash run stripped, for every lookup
state (the parse does not depend on it). -/
theorem claim_C3_amended (m3u8 path app keyRaw : String)
    (urlParse : String → Option String) (idx : Nat)
    (hm : m3u8 ≠ "") (hu : urlParse m3u8 = some path)
    (hidx : (pathSegments path).findIdx? (fun s => s == "live_cdn") = some idx)
    (hlen : (pathSegments path).length ≥ idx + 3)
    (happ : (pathSegments path)[idx + 1]? = some app)
    (hkeyRaw : (pathSegments path)[idx + 2]? = some keyRaw)
    (hkey : stripTrailingDashes keyRaw ≠ "") :
    ∀ lk : LookupResult, ∃ sid raw,
      resolveStream (some m3u8) urlParse lk
        = ResolveResp.ok app (stripTrailingDashes keyRaw) sid raw := by
  intro lk
  have hparse : parseCdnPath path
      = { appId := some app, streamKey := some (stripTrailingDashes keyRaw) } := by
    simp [parseCdnPath, hidx, hlen, happ, hkeyRaw]
  have happne : app ≠ "" :=
    mem_pathSegments_ne_empty (List.getElem?_mem happ)
  refine ⟨(doLookup (stripTrailingDashes keyRaw) lk).1,
    (doLookup (stripTrailingDashes keyRaw) lk).2, ?_⟩
  simp [resolveStream, hm, hu, hparse, strTruthy, happne, hkey]

/-- C3 (witness): concrete URL with two trailing dashes on the key. -/
theorem claim_C3_witness :
    ∃ sid raw,
      resolveStream (some "https://cdn.example.com/live_cdn/myapp/mykey--/index.m3u8")
        (urlParseStub "https://cdn.example.com/live_cdn/myapp/mykey--/index.m3u8"
          "/live_cdn/myapp/mykey--/index.m3u8")
        LookupResult.notConfigured
        = ResolveResp.ok "myapp" "mykey" sid raw := by
  have h := claim_C3_amended "https://cdn.example.com/live_cdn/myapp/mykey--/index.m3u8"
    "/live_cdn/myapp/mykey--/index.m3u8" "myapp" "mykey--"
    (urlParseStub "https://cdn.example.com/live_cdn/myapp/mykey--/index.m3u8"
      "/live_cdn/myapp/mykey--/index.m3u8") 0
    (by decide) (by decide) (by decide) (by decide) (by decide) (by decide) (by decide)
    LookupResult.notConfigured
  simpa using h


/-- C3 (counterexample): the claim as stated also covers a key segment that
is entirely dashes; there the stripped key is empty and the code answers the
422 `unrecognized` response instead of returning the parsed pair. -/
theorem claim_C3_cex :
    pathSegments "/live_cdn/app/---" = ["live_cdn", "app", "---"]
    ∧ parseCdnPath "/live_cdn/app/---" = { appId := some "app", streamKey := some "" }
    ∧ resolveStream (some "https://cdn.example.com/live_cdn/app/---")
        (urlParseStub "https://cdn.example.com/live_cdn/app/---" "/live_cdn/app/---")
        LookupResult.notConfigured
        = ResolveResp.unrecognized { appId := some "app", streamKey := some "" }
    ∧ ¬ ∃ sid raw,
        resolveStream (some "https://cdn.example.com/live_cdn/app/---")
          (urlParseStub "https://cdn.example.com/live_cdn/app/---" "/live_cdn/app/---")
          LookupResult.notConfigured
          = ResolveResp.ok "app" "" sid raw := by
  refine ⟨by decide, by decide, by decide, ?_⟩
  rintro ⟨sid, raw, hcontr⟩
  have h3 : resolveStream (some "https://cdn.example.com/live_cdn/app/---")
      (urlParseStub "https://cdn.example.com/live_cdn/app/---" "/live_cdn/app/---")
      LookupResult.notConfigured
      = ResolveResp.unrecognized { appId := some "app", streamKey := some "" } := by decide
  rw [h3] at hcontr
  exact ResolveResp.noConfusion hcontr

/-- C5 (amended): on a successfully parsed URL, a provider-directory fetch
failure records `raw.error = "livepush_lookup_failed"` (containing the
`lookup_failed` marker), while a non-list body records `streamsCount = 0`
and no error marker; in both cases the operation does not throw: it returns
the parsed `(appId, streamKey)` with `streamId = null`. -/
theorem claim_C5_amended (m3u8 path a k : String) (urlParse : String → Option String)
    (hm : m3u8 ≠ "") (hu : urlParse m3u8 = some path)
    (hp : parseCdnPath path = { appId := some a, streamKey := some k })
    (ha : a ≠ "") (hk : k ≠ "") :
    resolveStream (some m3u8) urlParse LookupResult.fetchError
      = ResolveResp.ok a k none
          { streamsCount := none, matched := none,
            error := some ("livepush_" ++ "lookup_failed") }
    ∧ resolveStream (some m3u8) urlParse LookupResult.nonList
      = ResolveResp.ok a k none
          { streamsCount := some 0, matched := none, error := none } := by
  constructor <;> simp [resolveStream, hm, hu, hp, strTruthy, ha, hk, doLookup]

/-- C5 (counterexample): the claim says a non-list directory response also
records the `lookup_failed` soft failure; in fact the response is returned
with `raw.error = none` (only `streamsCount = 0` is recorded). -/
theorem claim_C5_cex :
    resolveStream (some "https://cdn.example.com/live_cdn/app/key/index.m3u8")
      (urlParseStub "https://cdn.example.com/live_cdn/app/key/index.m3u8"
        "/live_cdn/app/key/index.m3u8")
      LookupResult.nonList
      = ResolveResp.ok "app" "key" none
          { streamsCount := some 0, matched := none, error := none }
    ∧ ({ streamsCount := some 0, matched := none, error := none } : RawInfo).error = none :=
  ⟨by decide, rfl⟩

/-- C5 (witness): concrete fetch-failure instance. -/
theorem claim_C5_amended_witness :
    resolveStream (some "https://cdn.example.com/live_cdn/app/key/index.m3u8")
      (urlParseStub "https://cdn.example.com/live_cdn/app/key/index.m3u8"
        "/live_cdn/app/key/index.m3u8")
      LookupResult.fetchError
      = ResolveResp.ok "app" "key" none
          { streamsCount := none, matched := none,
            error := some ("livepush_" ++ "lookup_failed") } :=
  (claim_C5_amended "https://cdn.example.com/live_cdn/app/key/index.m3u8"
    "/live_cdn/app/key/index.m3u8" "app" "key"
    (urlParseStub "https://cdn.example.com/live_cdn/app/key/index.m3u8"
      "/live_cdn/app/key/index.m3u8")
    (by decide) (by decide) (by decide) (by decide) (by decide)).1


/-- Case analysis of the parse phase: marker absent, marker too close to
the end, or both segments extracted (the first necessarily non-empty). -/
theorem parseCdnPath_cases (path : String) :
    ((pathSegments path).findIdx? (fun s => s == "live_cdn") = none
      ∧ parseCdnPath path = { appId := none, streamKey := none })
    ∨ (∃ i, (pathSegments path).findIdx? (fun s => s == "live_cdn") = some i
        ∧ (pathSegments path).length < i + 3
        ∧ parseCdnPath path = { appId := none, streamKey := none })
    ∨ (∃ i app keyRaw,
        (pathSegments path).findIdx? (fun s => s == "live_cdn") = some i
        ∧ (pathSegments path).length ≥ i + 3
        ∧ (pathSegments path)[i + 1]? = some app
        ∧ (pathSegments path)[i + 2]? = some keyRaw
        ∧ app ≠ ""
        ∧ parseCdnPath path
            = { appId := some app, streamKey := some (stripTrailingDashes keyRaw) }) := by
  cases hidx : (pathSegments path).findIdx? (fun s => s == "live_cdn") with
  | none => exact Or.inl ⟨rfl, by simp [parseCdnPath, hidx]⟩
  | some i =>
    by_cases hlen : (pathSegments path).length ≥ i + 3
    · have h1 : i + 1 < (pathSegments path).length := by omega
      have h2 : i + 2 < (pathSegments path).length := by omega
      refine Or.inr (Or.inr ⟨i, (pathSegments path)[i + 1], (pathSegments path)[i + 2],
        rfl, hlen, List.getElem?_eq_getElem h1, List.getElem?_eq_getElem h2,
        mem_pathSegments_ne_empty (List.getElem?_mem (List.getElem?_eq_getElem h1)), ?_⟩)
      simp [parseCdnPath, hidx, hlen, List.getElem?_eq_getElem h1, List.getElem?_eq_getElem h2]
    · refine Or.inr (Or.inl ⟨i, rfl, by omega, ?_⟩)
      simp [parseCdnPath, hidx, hlen]


/-- C7: `POST /resolve/stream` answers 400 exactly when the `m3u8` field is
missing/falsy or the URL does not parse, and answers the distinct 422
response exactly when the URL parses but the `live_cdn` marker is absent,
fewer than two segments follow it, or the stripped stream key is empty; the
422 response carries the partial parse. -/
theorem claim_C7 (m3u8 : Option String) (urlParse : String → Option String)
    (lk : LookupResult) (hEmpty : urlParse "" = none) :
    ((∃ msg, resolveStream m3u8 urlParse lk = ResolveResp.badRequest msg)
      ↔ ∀ s, m3u8 = some s → urlParse s = none)
    ∧ (∀ s path, m3u8 = some s → urlParse s = some path →
        ((∃ parsed, resolveStream m3u8 urlParse lk = ResolveResp.unrecognized parsed)
          ↔ ((pathSegments path).findIdx? (fun x => x == "live_cdn") = none
            ∨ (∃ i, (pathSegments path).findIdx? (fun x => x == "live_cdn") = some i
                ∧ (pathSegments path).length < i + 3)
            ∨ (∃ i keyRaw,
                (pathSegments path).findIdx? (fun x => x == "live_cdn") = some i
                ∧ (pathSegments path).length ≥ i + 3
                ∧ (pathSegments path)[i + 2]? = some keyRaw
                ∧ stripTrailingDashes keyRaw = "")))
        ∧ (∀ parsed, resolveStream m3u8 urlParse lk = ResolveResp.unrecognized parsed →
            parsed = parseCdnPath path)) := by
  constructor
  · cases m3u8 with
    | none =>
      constructor
      · intro _ s hs; exact Option.noConfusion hs
      · intro _; exact ⟨"m3u8 required", by simp [resolveStream]⟩
    | some s =>
      by_cases hs : s = ""
      · subst hs
        constructor
        · intro _ s' hs'
          obtain rfl := Option.some.inj hs'
          exact hEmpty
        · intro _; exact ⟨"m3u8 required", by simp [resolveStream]⟩
      · cases hu : urlParse s with
        | none =>
          constructor
          · intro _ s' hs'
            obtain rfl := Option.some.inj hs'
            exact hu
          · intro _
            refine ⟨"invalid m3u8 url", ?_⟩
            simp [resolveStream, hs, hu]
        | some path =>
          constructor
          · rintro ⟨msg, hmsg⟩
            exfalso
            revert hmsg
            simp only [resolveStream, Option.getD_some]
            simp only [hu]
            simp [hs]
            split <;> simp
          · intro hr
            have hcontr := hr s rfl
            rw [hu] at hcontr
            exact Option.noConfusion hcontr
  · intro s path hms hu
    subst hms
    have hs : s ≠ "" := by
      intro hcontr; subst hcontr; rw [hEmpty] at hu; exact Option.noConfusion hu
    have hred : resolveStream (some s) urlParse lk
        = (if (!(strTruthy (parseCdnPath path).appId)
              || !(strTruthy (parseCdnPath path).streamKey)) = true
           then ResolveResp.unrecognized (parseCdnPath path)
           else ResolveResp.ok ((parseCdnPath path).appId.getD "")
                  ((parseCdnPath path).streamKey.getD "")
                  (doLookup ((parseCdnPath path).streamKey.getD "") lk).1
                  (doLookup ((parseCdnPath path).streamKey.getD "") lk).2) := by
      simp [resolveStream, hs, hu]
    have hcarry : ∀ parsed,
        resolveStream (some s) urlParse lk = ResolveResp.unrecognized parsed →
        parsed = parseCdnPath path := by
      intro parsed hparsed
      rw [hred] at hparsed
      by_cases hcond : (!(strTruthy (parseCdnPath path).appId)
          || !(strTruthy (parseCdnPath path).streamKey)) = true
      · rw [if_pos hcond] at hparsed
        injection hparsed with h
        exact h.symm
      · rw [if_neg hcond] at hparsed
        exact ResolveResp.noConfusion hparsed
    refine ⟨?_, hcarry⟩
    rcases parseCdnPath_cases path with ⟨hidx, hp⟩ | ⟨i, hidx, hlen, hp⟩
      | ⟨i, app, keyRaw, hidx, hlen, happ, hkeyRaw, happne, hp⟩
    · refine iff_of_true ⟨parseCdnPath path, ?_⟩ (Or.inl hidx)
      rw [hred, hp]
      simp [strTruthy]
    · refine iff_of_true ⟨parseCdnPath path, ?_⟩ (Or.inr (Or.inl ⟨i, hidx, hlen⟩))
      rw [hred, hp]
      simp [strTruthy]
    · by_cases hk : stripTrailingDashes keyRaw = ""
      · refine iff_of_true ⟨parseCdnPath path, ?_⟩
          (Or.inr (Or.inr ⟨i, keyRaw, hidx, hlen, hkeyRaw, hk⟩))
        rw [hred, hp]
        simp [strTruthy, hk]
      · refine iff_of_false ?_ ?_
        · rintro ⟨parsed, hparsed⟩
          rw [hred, hp] at hparsed
          simp [strTruthy, happne, hk] at hparsed
        · rintro (hA | ⟨j, hj, hjlen⟩ | ⟨j, kr, hj, hjlen, hkr, hkstrip⟩)
          · rw [hidx] at hA; exact Option.noConfusion hA
          · rw [hidx] at hj
            obtain rfl := Option.some.inj hj
            omega
          · rw [hidx] at hj
            obtain rfl := Option.some.inj hj
            rw [hkeyRaw] at hkr
            obtain rfl := Option.some.inj hkr
            exact hk hkstrip


/-- C7 (witness): a 400 on an unparsable URL and a 422 on a parsed URL
without the marker. -/
theorem claim_C7_witness :
    (∃ msg, resolveStream (some "not a url")
        (urlParseStub "https://cdn.example.com/x/a/b" "/x/a/b")
        LookupResult.notConfigured = ResolveResp.badRequest msg)
    ∧ (∃ parsed, resolveStream (some "https://cdn.example.com/x/a/b")
        (urlParseStub "https://cdn.example.com/x/a/b" "/x/a/b")
        LookupResult.notConfigured = ResolveResp.unrecognized parsed) := by
  have h1 := claim_C7 (some "not a url")
    (urlParseStub "https://cdn.example.com/x/a/b" "/x/a/b")
    LookupResult.notConfigured (by decide)
  have h2 := claim_C7 (some "https://cdn.example.com/x/a/b")
    (urlParseStub "https://cdn.example.com/x/a/b" "/x/a/b")
    LookupResult.notConfigured (by decide)
  refine ⟨h1.1.mpr ?_,
    ((h2.2 "https://cdn.example.com/x/a/b" "/x/a/b" rfl (by decide)).1).mpr
      (Or.inl (by decide))⟩
  intro s' hs'
  obtain rfl := Option.some.inj hs'
  decide

end Relay
